import Mathlib

/-!
Verification development for the `crashmail` supervisor event listener
(`superlance/crashmail.py`).

The listener attaches to a process supervisor's event bus over its standard
streams.  Per protocol turn it signals readiness, decodes one event
(a header block of `key:value` tokens plus a payload), classifies the event
(Ignore / ExpectedExit / UnexpectedExit), on an unexpected exit composes and
sends a mail notification through an HTTP mail sink, and acknowledges the
event back to the supervisor.

The embedding below translates the source faithfully:
* the codec helpers (`getHeaders`, `eventdata`, the `READY` and ack frames)
  model the `supervisor.childutils` dependency the source calls into, whose
  code is not part of this repository; they are modelled from the spec's
  description of the listener protocol (header block of whitespace-separated
  `key:value` pairs, payload, `RESULT`-frame acknowledgement);
* external effects (wall-clock timestamp, the outbound-address socket probe
  of `get_host_ip`, the mail sink's success or transport failure) enter as
  explicit per-iteration inputs (`IterEnv`); fallible ones are `Option`s /
  success flags, since in the source they raise exceptions;
* one loop iteration of `CrashMail.runforever` is `handleRaw` (protocol
  frames written, stderr lines, attempted sink calls, classification
  reached, and the exception aborting the iteration, if any); the loop
  itself is `runforever`;
* `main` is modelled from the point where `getopt` has produced the
  option/value list: the option-processing loop, the
  `SUPERVISOR_SERVER_URL` environment check, listener construction and
  entry into the loop.
-/

namespace Superlance

/-- Characters Python's `str.split()` (and `str.strip()`) treat as
whitespace, restricted to the ones that can occur in protocol data. -/
def isSpaceChar (c : Char) : Bool :=
  c == ' ' || c == '\t' || c == '\n' || c == '\r'

/-- Helper for `splitWs`: accumulates the current token (reversed). -/
def splitWsAux : List Char → List Char → List String
  | [], acc => if acc.isEmpty then [] else [String.mk acc.reverse]
  | c :: cs, acc =>
    if isSpaceChar c then
      if acc.isEmpty then splitWsAux cs []
      else String.mk acc.reverse :: splitWsAux cs []
    else splitWsAux cs (c :: acc)

/-- Python `str.split()` with no argument: split on runs of whitespace,
dropping empty tokens. -/
def splitWs (s : String) : List String :=
  splitWsAux s.toList []

/-- Split a character list at every colon, Python `x.split(':')`. -/
def splitColons : List Char → List (List Char)
  | [] => [[]]
  | c :: cs =>
    if c = ':' then [] :: splitColons cs
    else
      match splitColons cs with
      | [] => [[c]]
      | p :: ps => (c :: p) :: ps

/-- Parse one `key:value` header token.  Python builds
`dict([x.split(':') for x in line.split()])`, which raises unless every
token splits into exactly two parts, hence `Option`. -/
def parseToken (t : String) : Option (String × String) :=
  match splitColons t.toList with
  | [k, v] => some (String.mk k, String.mk v)
  | _ => none

/-- Modelled from the spec: `supervisor.childutils.get_headers` — parse a
header line of whitespace-separated `key:value` pairs into an ordered
mapping (`none` when a token is malformed, where Python raises). -/
def getHeaders (line : String) : Option (List (String × String)) :=
  (splitWs line).mapM parseToken

/-- Look a key up in a parsed header block.  Python materialises the pairs
into a `dict`, so a later duplicate key overrides an earlier one: the last
binding wins. -/
def hdrGet (hs : List (String × String)) (k : String) : Option String :=
  ((hs.filter fun p => p.1 == k).getLast?).map Prod.snd

/-- Split a character list at the first newline, Python
`payload.split('\n', 1)`; `none` when there is no newline (where the
source's two-target unpacking would raise). -/
def splitFirstNl : List Char → Option (List Char × List Char)
  | [] => none
  | c :: cs =>
    if c = '\n' then some ([], cs)
    else (splitFirstNl cs).map fun p => (c :: p.1, p.2)

/-- Modelled from the spec: `supervisor.childutils.eventdata` — split the
payload at its first newline, parse the first part as a header block, and
return the remainder as opaque data. -/
def eventdata (payload : String) : Option (List (String × String) × String) :=
  match splitFirstNl payload.toList with
  | none => none
  | some (hd, tl) => (getHeaders (String.mk hd)).map fun hs => (hs, String.mk tl)

/-- Strip leading and trailing whitespace, as Python `int()` does before
parsing. -/
def stripWs (cs : List Char) : List Char :=
  ((cs.dropWhile isSpaceChar).reverse.dropWhile isSpaceChar).reverse

/-- Value of a nonempty all-digit character list, `none` otherwise. -/
def digitsVal : List Char → Option Nat
  | [] => none
  | cs =>
    if cs.all (fun c => c.isDigit) then
      some (cs.foldl (fun a c => a * 10 + (c.toNat - 48)) 0)
    else none

/-- Python `int(s)` on a string: optional surrounding whitespace, optional
sign, then decimal digits; `none` where Python raises `ValueError`. -/
def parsePyInt (s : String) : Option Int :=
  match stripWs s.toList with
  | [] => none
  | '-' :: rest => (digitsVal rest).map fun n => -(n : Int)
  | '+' :: rest => (digitsVal rest).map fun n => (n : Int)
  | cs => (digitsVal cs).map fun n => (n : Int)

/-- Modelled from the spec: the readiness token `childutils.listener.ready`
writes before blocking for an event. -/
def readyFrame : String := "READY\n"

/-- Modelled from the spec: the acknowledgement frame
`childutils.listener.ok` writes after an event is processed
(`RESULT <len>\n<data>` with data `OK`). -/
def ackFrame : String := "RESULT 2\nOK"

/-- Static listener configuration, the fields `CrashMail.__init__` stores
from its arguments.  `optionalheader` is `None` or a string in the source,
hence `Option String`. -/
structure CrashMail where
  programs : List String
  any : Bool
  email_host : String
  email_to : String
  optionalheader : Option String
deriving DecidableEq

/-- Per-iteration external effects of one `runforever` cycle:
the wall-clock timestamp `childutils.get_asctime()` returns, the outcome of
the `get_host_ip` socket probe (`none` when the probe raises), and whether
the mail sink call returns normally (`sendOk = false` models a raised
transport error, per the spec's description of the sink surfacing
`SendError` to the caller). -/
structure IterEnv where
  timestamp : String
  hostIp : Option String
  sendOk : Bool
deriving DecidableEq

/-- One protocol event as delivered to an iteration: the raw header line
read by `childutils.listener.wait`, the payload bytes, and that iteration's
external effects. -/
structure RawEvent where
  headerLine : String
  payload : String
  env : IterEnv
deriving DecidableEq

/-- One call handed to the mail sink by `send_mail_by_http`: the service
endpoint the `MailService` was constructed with, the recipient, the subject
line, and the ordered key/value body (`html_struct`). -/
structure SendCall where
  email_host : String
  email_to : String
  subject : String
  body : List (String × String)
deriving DecidableEq

/-- The decision engine's classification of one event. -/
inductive Classification where
  | Ignore : Classification
  | ExpectedExit : Classification
  | UnexpectedExit : String → Classification
deriving DecidableEq

/-- The exception, if any, that aborts an iteration (and with it the
loop): a protocol error (`KeyError`/`ValueError` while decoding), the
outbound-address probe failing, or the mail sink raising. -/
inductive LoopError where
  | protocolError : LoopError
  | probeError : LoopError
  | sendError : LoopError
deriving DecidableEq

/-- Observable outcome of one `runforever` iteration: protocol frames
written to stdout, lines written to stderr, sink calls attempted,
classification reached (if the iteration got that far), and the aborting
exception, if any. -/
structure IterResult where
  frames : List String
  stderrLines : List String
  sends : List SendCall
  cls : Option Classification
  err : Option LoopError
deriving DecidableEq

/-- Message the source renders for an unexpected exit
(`'Process %s in group %s exited unexpectedly (pid %s) from state %s'`). -/
def crashMsg (processname groupname pid fromstate : String) : String :=
  "Process " ++ processname ++ " in group " ++ groupname ++
    " exited unexpectedly (pid " ++ pid ++ ") from state " ++ fromstate

/-- Subject line before the optional prefix
(`'%s in %s crashed at %s'`). -/
def baseSubject (processname hostIp ts : String) : String :=
  processname ++ " in " ++ hostIp ++ " crashed at " ++ ts

/-- Apply the configured subject prefix: the source prepends
`optionalheader + ':'` only when `self.optionalheader` is truthy, so a
missing or empty prefix leaves the subject unchanged. -/
def withOptionalheader (o : Option String) (subject : String) : String :=
  match o with
  | some h => if h ≠ "" then h ++ ":" ++ subject else subject
  | none => subject

/-- Modelled from the spec: the decode half of
`childutils.listener.wait` — after writing `READY`, parse the header line
and require an integer `len` field (Python does `int(headers['len'])` to
size the payload read); `none` where Python raises. -/
def waitHeaders (e : RawEvent) : Option (List (String × String)) :=
  match getHeaders e.headerLine with
  | none => none
  | some headers =>
    match hdrGet headers "len" with
    | none => none
    | some lenStr =>
      match parsePyInt lenStr with
      | none => none
      | some _ => some headers

/-- The body of one `runforever` iteration after `wait` has decoded the
envelope: classify the event, compose and attempt the notification on an
unexpected exit, and acknowledge.  Frames listed here are the ones written
after the `READY` token.  Every `Option` miss models an uncaught Python
exception at the corresponding source line. -/
def handleDecoded (cfg : CrashMail) (test : Bool) (env : IterEnv)
    (headers : List (String × String)) (payload : String) : IterResult :=
  match hdrGet headers "eventname" with
  | none => ⟨[], [], [], none, some .protocolError⟩
  | some en =>
    if en ≠ "PROCESS_STATE_EXITED" then
      ⟨[ackFrame], (if test then ["non-exited event\n"] else []), [],
        some .Ignore, none⟩
    else
      match eventdata (payload ++ "\n") with
      | none => ⟨[], [], [], none, some .protocolError⟩
      | some (pheaders, _pdata) =>
        match hdrGet pheaders "expected" with
        | none => ⟨[], [], [], none, some .protocolError⟩
        | some exStr =>
          match parsePyInt exStr with
          | none => ⟨[], [], [], none, some .protocolError⟩
          | some exVal =>
            if exVal ≠ 0 then
              ⟨[ackFrame], (if test then ["expected exit\n"] else []), [],
                some .ExpectedExit, none⟩
            else
              match env.hostIp with
              | none => ⟨[], [], [], none, some .probeError⟩
              | some ip =>
                match hdrGet pheaders "processname" with
                | none => ⟨[], [], [], none, some .protocolError⟩
                | some pname =>
                  match hdrGet pheaders "pid" with
                  | none => ⟨[], [], [], none, some .protocolError⟩
                  | some pid =>
                    match hdrGet pheaders "groupname" with
                    | none => ⟨[], [], [], none, some .protocolError⟩
                    | some gname =>
                      match hdrGet pheaders "from_state" with
                      | none => ⟨[], [], [], none, some .protocolError⟩
                      | some fstate =>
                        let msg := crashMsg pname gname pid fstate
                        let body := [("event_time", env.timestamp),
                                     ("host_ip", ip),
                                     ("process_name", pname),
                                     ("process_pid", pid),
                                     ("event_msg", msg)]
                        let subject := withOptionalheader cfg.optionalheader
                          (baseSubject pname ip env.timestamp)
                        let call : SendCall :=
                          ⟨cfg.email_host, cfg.email_to, subject, body⟩
                        if env.sendOk then
                          ⟨[ackFrame], ["unexpected exit, mailing\n"], [call],
                            some (.UnexpectedExit msg), none⟩
                        else
                          ⟨[], ["unexpected exit, mailing\n"], [call],
                            some (.UnexpectedExit msg), some .sendError⟩

/-- One full `runforever` iteration: `wait` writes the `READY` token and
decodes the envelope (aborting with a protocol error when it cannot), then
the loop body runs. -/
def handleRaw (cfg : CrashMail) (test : Bool) (e : RawEvent) : IterResult :=
  match waitHeaders e with
  | none => ⟨[readyFrame], [], [], none, some .protocolError⟩
  | some headers =>
    let r := handleDecoded cfg test e.env headers e.payload
    ⟨readyFrame :: r.frames, r.stderrLines, r.sends, r.cls, r.err⟩

/-- Accumulated observable outcome of a `runforever` run over a finite
prefix of the event stream. -/
structure RunResult where
  frames : List String
  stderrLines : List String
  sends : List SendCall
  err : Option LoopError
deriving DecidableEq

/-- The listener loop `CrashMail.runforever` over a finite event stream:
process events in order; an uncaught exception ends the run (recorded in
`err`); in test mode the loop breaks after its first event. -/
def runforever (cfg : CrashMail) (test : Bool) : List RawEvent → RunResult
  | [] => ⟨[], [], [], none⟩
  | e :: rest =>
    let r := handleRaw cfg test e
    match r.err with
    | some er => ⟨r.frames, r.stderrLines, r.sends, some er⟩
    | none =>
      if test then ⟨r.frames, r.stderrLines, r.sends, none⟩
      else
        let rr := runforever cfg test rest
        ⟨r.frames ++ rr.frames, r.stderrLines ++ rr.stderrLines,
          r.sends ++ rr.sends, rr.err⟩

/-- Hardcoded default mail-service endpoint in `main`. -/
def defaultEmailHost : String := "xxx.xxx.xxx.xxx:6789"

/-- Hardcoded default recipient in `main`. -/
def defaultEmailTo : String := "senserealty-devops@sensetime.com"

/-- Configuration state before the option loop runs: the defaults `main`
assigns. -/
def initialCrashMail : CrashMail :=
  ⟨[], false, defaultEmailHost, defaultEmailTo, none⟩

/-- One pass of `main`'s option loop over a single `(option, value)` pair.
`-h`/`--help` calls `usage(exitstatus=0)`, which exits the process (the
`Except.error` carries the exit status); the remaining tests are the
source's independent `if` statements. -/
def processOption (st : CrashMail) (ov : String × String) :
    Except Nat CrashMail :=
  if ov.1 = "-h" ∨ ov.1 = "--help" then .error 0
  else
    let st := if ov.1 = "-p" ∨ ov.1 = "--program" then
        { st with programs := st.programs ++ [ov.2] } else st
    let st := if ov.1 = "-a" ∨ ov.1 = "--any" then
        { st with any := true } else st
    let st := if ov.1 = "-h" ∨ ov.1 = "--email_host" then
        { st with email_host := ov.2 } else st
    let st := if ov.1 = "-m" ∨ ov.1 = "--email_to" then
        { st with email_to := ov.2 } else st
    let st := if ov.1 = "-o" ∨ ov.1 = "--optionalheader" then
        { st with optionalheader := some ov.2 } else st
    .ok st

/-- `main`'s option loop over the list `getopt` produced. -/
def processOpts : CrashMail → List (String × String) → Except Nat CrashMail
  | st, [] => .ok st
  | st, ov :: rest =>
    match processOption st ov with
    | .error s => .error s
    | .ok st2 => processOpts st2 rest

/-- The environment key `main` requires before entering the loop. -/
def SUPERVISOR_SERVER_URL : String := "SUPERVISOR_SERVER_URL"

/-- Diagnostic `main` writes to stderr when the marker is absent. -/
def crashmailDiagnostic : String :=
  "crashmail must be run as a supervisor event listener\n"

/-- Outcome of a `main` invocation: exited through `usage` (status carried),
returned after the environment-marker diagnostic without constructing the
listener, or constructed the listener and entered the loop. -/
inductive MainOutcome where
  | usageExit : Nat → MainOutcome
  | envMissing : String → MainOutcome
  | ran : CrashMail → RunResult → MainOutcome
deriving DecidableEq

/-- `main`, modelled from the point where `getopt` has produced the
option/value pairs: run the option loop, check for the
`SUPERVISOR_SERVER_URL` environment key, and either return with the
diagnostic or construct the `CrashMail` listener and run `runforever`
(production mode, `test = False`). -/
def main (opts : List (String × String)) (envKeys : List String)
    (events : List RawEvent) : MainOutcome :=
  match processOpts initialCrashMail opts with
  | .error s => .usageExit s
  | .ok cfg =>
    if envKeys.contains SUPERVISOR_SERVER_URL then
      .ran cfg (runforever cfg false events)
    else
      .envMissing crashmailDiagnostic

end Superlance

namespace Superlance

/-! ### Branch equations for one iteration -/

/-- Branch equation: a non-`PROCESS_STATE_EXITED` event is ignored and
acknowledged. -/
lemma handleDecoded_ignore (cfg : CrashMail) (test : Bool) (env : IterEnv)
    (headers : List (String × String)) (payload : String) (en : String)
    (h1 : hdrGet headers "eventname" = some en)
    (hne : en ≠ "PROCESS_STATE_EXITED") :
    handleDecoded cfg test env headers payload =
      ⟨[ackFrame], (if test then ["non-exited event\n"] else []), [],
        some .Ignore, none⟩ := by
  simp [handleDecoded, h1, hne]

/-- Branch equation: an expected exit is acknowledged without
notification. -/
lemma handleDecoded_expected (cfg : CrashMail) (test : Bool) (env : IterEnv)
    (headers : List (String × String)) (payload : String)
    (ph : List (String × String)) (pd es : String) (v : Int)
    (h1 : hdrGet headers "eventname" = some "PROCESS_STATE_EXITED")
    (h2 : eventdata (payload ++ "\n") = some (ph, pd))
    (h3 : hdrGet ph "expected" = some es)
    (h4 : parsePyInt es = some v)
    (hv : v ≠ 0) :
    handleDecoded cfg test env headers payload =
      ⟨[ackFrame], (if test then ["expected exit\n"] else []), [],
        some .ExpectedExit, none⟩ := by
  simp [handleDecoded, h1, h2, h3, h4, hv]

/-- The sink call composed for an unexpected exit: recipient and endpoint
from the configuration, subject from process name, host address and
timestamp, body the ordered `html_struct`. -/
def unexpectedCall (cfg : CrashMail) (env : IterEnv)
    (ip n p g f : String) : SendCall :=
  ⟨cfg.email_host, cfg.email_to,
    withOptionalheader cfg.optionalheader (baseSubject n ip env.timestamp),
    [("event_time", env.timestamp), ("host_ip", ip), ("process_name", n),
     ("process_pid", p), ("event_msg", crashMsg n g p f)]⟩

/-- Branch equation: an unexpected exit with successful address probe
composes one sink call; the acknowledgement happens only when the sink
returns normally, a raised transport error aborts the iteration. -/
lemma handleDecoded_unexpected (cfg : CrashMail) (test : Bool) (env : IterEnv)
    (headers : List (String × String)) (payload : String)
    (ph : List (String × String)) (pd es ip n p g f : String)
    (h1 : hdrGet headers "eventname" = some "PROCESS_STATE_EXITED")
    (h2 : eventdata (payload ++ "\n") = some (ph, pd))
    (h3 : hdrGet ph "expected" = some es)
    (h4 : parsePyInt es = some 0)
    (h5 : env.hostIp = some ip)
    (h6 : hdrGet ph "processname" = some n)
    (h7 : hdrGet ph "pid" = some p)
    (h8 : hdrGet ph "groupname" = some g)
    (h9 : hdrGet ph "from_state" = some f) :
    handleDecoded cfg test env headers payload =
      ⟨(if env.sendOk then [ackFrame] else []),
        ["unexpected exit, mailing\n"],
        [unexpectedCall cfg env ip n p g f],
        some (.UnexpectedExit (crashMsg n g p f)),
        (if env.sendOk then none else some .sendError)⟩ := by
  simp only [handleDecoded, h1, h2, h3, h4, h5, h6, h7, h8, h9]
  cases hs : env.sendOk <;> simp [unexpectedCall]

/-- Branch equation: a failing outbound-address probe aborts the iteration
before any notification or acknowledgement. -/
lemma handleDecoded_probeFail (cfg : CrashMail) (test : Bool) (env : IterEnv)
    (headers : List (String × String)) (payload : String)
    (ph : List (String × String)) (pd es : String)
    (h1 : hdrGet headers "eventname" = some "PROCESS_STATE_EXITED")
    (h2 : eventdata (payload ++ "\n") = some (ph, pd))
    (h3 : hdrGet ph "expected" = some es)
    (h4 : parsePyInt es = some 0)
    (h5 : env.hostIp = none) :
    handleDecoded cfg test env headers payload =
      ⟨[], [], [], none, some .probeError⟩ := by
  simp [handleDecoded, h1, h2, h3, h4, h5]

/-- Branch equation: a missing or unparsable `expected` field aborts the
iteration with a protocol error. -/
lemma handleDecoded_badExpected (cfg : CrashMail) (test : Bool) (env : IterEnv)
    (headers : List (String × String)) (payload : String)
    (ph : List (String × String)) (pd : String)
    (h1 : hdrGet headers "eventname" = some "PROCESS_STATE_EXITED")
    (h2 : eventdata (payload ++ "\n") = some (ph, pd))
    (h3 : hdrGet ph "expected" = none ∨
      ∃ es, hdrGet ph "expected" = some es ∧ parsePyInt es = none) :
    handleDecoded cfg test env headers payload =
      ⟨[], [], [], none, some .protocolError⟩ := by
  rcases h3 with h3 | ⟨es, h3, h4⟩
  · simp [handleDecoded, h1, h2, h3]
  · simp [handleDecoded, h1, h2, h3, h4]

/-- Unfolding equation for a full iteration whose envelope decodes. -/
lemma handleRaw_eq (cfg : CrashMail) (test : Bool) (e : RawEvent)
    (headers : List (String × String))
    (h : waitHeaders e = some headers) :
    handleRaw cfg test e =
      ⟨readyFrame :: (handleDecoded cfg test e.env headers e.payload).frames,
        (handleDecoded cfg test e.env headers e.payload).stderrLines,
        (handleDecoded cfg test e.env headers e.payload).sends,
        (handleDecoded cfg test e.env headers e.payload).cls,
        (handleDecoded cfg test e.env headers e.payload).err⟩ := by
  simp [handleRaw, h]

/-- An iteration that completes (no exception) emits the acknowledgement
frame exactly once. -/
lemma handleDecoded_count_ack (cfg : CrashMail) (test : Bool) (env : IterEnv)
    (headers : List (String × String)) (payload : String) :
    (handleDecoded cfg test env headers payload).err = none →
    (handleDecoded cfg test env headers payload).frames = [ackFrame] := by
  unfold handleDecoded
  repeat' split
  all_goals intro h
  all_goals simp_all

/-- A full iteration that completes emits exactly one acknowledgement. -/
lemma handleRaw_count_ack (cfg : CrashMail) (test : Bool) (e : RawEvent) :
    (handleRaw cfg test e).err = none →
    (handleRaw cfg test e).frames.count ackFrame = 1 := by
  unfold handleRaw
  cases hw : waitHeaders e with
  | none => simp
  | some headers =>
    intro h
    have hf := handleDecoded_count_ack cfg test e.env headers e.payload h
    simp [hf, List.count_cons]
    decide

end Superlance

namespace Superlance

/-! ### Loop unfolding equations -/

/-- An iteration ending in an uncaught exception ends the run. -/
lemma runforever_cons_err (cfg : CrashMail) (test : Bool) (e : RawEvent)
    (rest : List RawEvent) (er : LoopError)
    (h : (handleRaw cfg test e).err = some er) :
    runforever cfg test (e :: rest) =
      ⟨(handleRaw cfg test e).frames, (handleRaw cfg test e).stderrLines,
        (handleRaw cfg test e).sends, some er⟩ := by
  simp [runforever, h]

/-- A completed iteration in looping mode is followed by the rest of the
run. -/
lemma runforever_cons_ok (cfg : CrashMail) (e : RawEvent)
    (rest : List RawEvent)
    (h : (handleRaw cfg false e).err = none) :
    runforever cfg false (e :: rest) =
      ⟨(handleRaw cfg false e).frames ++ (runforever cfg false rest).frames,
        (handleRaw cfg false e).stderrLines ++
          (runforever cfg false rest).stderrLines,
        (handleRaw cfg false e).sends ++ (runforever cfg false rest).sends,
        (runforever cfg false rest).err⟩ := by
  simp [runforever, h]

/-- A completed iteration in test mode ends the run. -/
lemma runforever_cons_test (cfg : CrashMail) (e : RawEvent)
    (rest : List RawEvent)
    (h : (handleRaw cfg true e).err = none) :
    runforever cfg true (e :: rest) =
      ⟨(handleRaw cfg true e).frames, (handleRaw cfg true e).stderrLines,
        (handleRaw cfg true e).sends, none⟩ := by
  simp [runforever, h]

/-! ### Concrete example data -/

/-- Example configuration: subject prefix `prod` configured. -/
def exCfg : CrashMail :=
  ⟨[], false, "mail.example:6789", "ops@example.com", some "prod"⟩

/-- Example per-iteration environment: timestamp `T`, probe resolves
`10.0.0.5`, sink succeeds. -/
def exEnv : IterEnv := ⟨"T", some "10.0.0.5", true⟩

/-- Example envelope line of a process-exited event. -/
def exHeaderLine : String :=
  "ver:3.0 server:supervisor eventname:PROCESS_STATE_EXITED len:70"

/-- Example payload of an unexpected exit of `worker` in group `web`. -/
def exPayload : String :=
  "processname:worker groupname:web pid:123 expected:0 from_state:RUNNING"

/-- Example event whose iteration completes normally. -/
def exEventOk : RawEvent := ⟨exHeaderLine, exPayload, exEnv⟩

/-- The same event in an iteration where the mail sink raises a transport
error. -/
def exEventSendFail : RawEvent :=
  ⟨exHeaderLine, exPayload, ⟨"T", some "10.0.0.5", false⟩⟩

/-- The same event in an iteration where the outbound-address probe
fails. -/
def exEventProbeFail : RawEvent :=
  ⟨exHeaderLine, exPayload, ⟨"T", none, true⟩⟩

/-- The message the example payload renders to. -/
def exMsg : String :=
  "Process worker in group web exited unexpectedly (pid 123) from state RUNNING"

/-! ### C1 -/

/-- C1 counterexample: a decoded process-exited event on the
UnexpectedExit classification branch whose iteration hits a raised
mail-sink transport error.  The classification is reached and the
notification attempted, yet the loop emits zero Acknowledge frames for the
event, refuting "the listener loop emits the Acknowledge frame exactly
once ... on every classification branch". -/
theorem C1_counterexample :
    (handleRaw exCfg false exEventSendFail).cls =
      some (Classification.UnexpectedExit exMsg) ∧
    (handleRaw exCfg false exEventSendFail).frames.count ackFrame = 0 ∧
    (runforever exCfg false [exEventSendFail]).frames.count ackFrame = 0 := by
  decide

/-- C1 (amended): for every decoded event whose iteration completes
without an uncaught exception (outbound-address probe and mail sink
succeed on the UnexpectedExit branch; nothing can fail on the Ignore and
ExpectedExit branches), the loop emits the Acknowledge frame exactly once
per event, in both looping and test mode. -/
theorem C1_ack_once_per_completed_event (cfg : CrashMail) (test : Bool)
    (events : List RawEvent)
    (h : (runforever cfg test events).err = none) :
    (runforever cfg test events).frames.count ackFrame =
      if test then min events.length 1 else events.length := by
  induction events with
  | nil =>
    cases test <;> simp [runforever]
  | cons e rest ih =>
    cases hr : (handleRaw cfg test e).err with
    | some er =>
      rw [runforever_cons_err cfg test e rest er hr] at h
      simp at h
    | none =>
      have h1 := handleRaw_count_ack cfg test e hr
      cases test with
      | true =>
        rw [runforever_cons_test cfg e rest hr]
        simpa using h1
      | false =>
        rw [runforever_cons_ok cfg e rest hr] at h ⊢
        simp only [List.count_append, h1]
        simp only at h
        rw [ih h]
        simp [Nat.add_comm]

/-- C1 witness: a concrete completed iteration acknowledges exactly
once. -/
theorem C1_witness :
    (runforever exCfg false [exEventOk]).err = none ∧
    (runforever exCfg false [exEventOk]).frames.count ackFrame = 1 := by
  refine ⟨by decide, ?_⟩
  have h := C1_ack_once_per_completed_event exCfg false [exEventOk] (by decide)
  simpa using h

/-! ### C2 -/

/-- C2 counterexample: the sink raises a transport error while sending the
notification for `exEventSendFail`; the run over that event followed by a
well-formed event ends with the send error, emits no Acknowledge frame at
all (its only frame is the initial READY token), and never reaches the
second event — refuting "the listener loop still emits the Acknowledge
frame for that event, does not terminate, and goes on to process the next
event". -/
theorem C2_counterexample :
    (runforever exCfg false [exEventSendFail, exEventOk]).err =
      some LoopError.sendError ∧
    (runforever exCfg false [exEventSendFail, exEventOk]).frames =
      [readyFrame] ∧
    (runforever exCfg false [exEventSendFail, exEventOk]).frames.count
      ackFrame = 0 ∧
    (runforever exCfg false [exEventSendFail, exEventOk]).sends.length = 1 := by
  decide

/-- C2 (amended): when the mail sink raises a transport error while
sending the notification for an UnexpectedExit event, the exception
propagates out of the loop body uncaught: the notification was attempted
exactly once and the "unexpected exit, mailing" diagnostic written, but no
Acknowledge frame is emitted for that event and the loop terminates with
the send error, processing no further events. -/
theorem C2_sendError_aborts_loop (cfg : CrashMail) (e : RawEvent)
    (rest : List RawEvent)
    (h : (handleRaw cfg false e).err = some LoopError.sendError) :
    (runforever cfg false (e :: rest)).err = some LoopError.sendError ∧
    (runforever cfg false (e :: rest)).frames = [readyFrame] ∧
    (runforever cfg false (e :: rest)).frames.count ackFrame = 0 ∧
    (runforever cfg false (e :: rest)).sends.length = 1 ∧
    (runforever cfg false (e :: rest)).stderrLines =
      ["unexpected exit, mailing\n"] := by
  rw [runforever_cons_err cfg false e rest LoopError.sendError h]
  have hshape : (handleRaw cfg false e).frames = [readyFrame] ∧
      (handleRaw cfg false e).sends.length = 1 ∧
      (handleRaw cfg false e).stderrLines = ["unexpected exit, mailing\n"] := by
    revert h
    unfold handleRaw handleDecoded
    repeat' split
    all_goals intro h
    all_goals simp_all
  refine ⟨rfl, hshape.1, ?_, hshape.2.1, hshape.2.2⟩
  simp [hshape.1]
  decide

/-- C2 witness for the amended statement at a concrete failing send. -/
theorem C2_witness :
    (runforever exCfg false [exEventSendFail, exEventOk]).err =
      some LoopError.sendError ∧
    (runforever exCfg false [exEventSendFail, exEventOk]).sends.length = 1 := by
  have h := C2_sendError_aborts_loop exCfg exEventSendFail [exEventOk]
    (by decide)
  exact ⟨h.1, h.2.2.2.1⟩

end Superlance

namespace Superlance

/-- The round-trip envelope line from the spec's example. -/
def rtHeaderLine : String := "eventname:PROCESS_STATE_EXITED len:41"

/-- The round-trip event: spec example envelope plus example payload. -/
def rtEvent : RawEvent := ⟨rtHeaderLine, exPayload, exEnv⟩

/-- The example envelope, as parsed. -/
def exHeaders : List (String × String) :=
  [("ver", "3.0"), ("server", "supervisor"),
   ("eventname", "PROCESS_STATE_EXITED"), ("len", "70")]

/-- The example payload, as parsed. -/
def exPheaders : List (String × String) :=
  [("processname", "worker"), ("groupname", "web"), ("pid", "123"),
   ("expected", "0"), ("from_state", "RUNNING")]

/-- The example event with `expected` not parsing as an integer. -/
def exEventBadExpected : RawEvent :=
  ⟨exHeaderLine,
   "processname:worker groupname:web pid:123 expected:oops from_state:RUNNING",
   exEnv⟩

/-! ### C3 -/

/-- C3: the classification of every decoded event is exactly: a
non-process-exited eventname is classified Ignore with no notification; a
process-exited event with non-zero `expected` is classified ExpectedExit
with no notification; a process-exited event with zero `expected` is
classified UnexpectedExit and the composer is invoked exactly once; each
branch emits exactly one Acknowledge frame. -/
theorem C3_classification (cfg : CrashMail) (test : Bool) (env : IterEnv)
    (headers : List (String × String)) (payload : String) :
    (∀ en, hdrGet headers "eventname" = some en →
      en ≠ "PROCESS_STATE_EXITED" →
      (handleDecoded cfg test env headers payload).cls =
        some Classification.Ignore ∧
      (handleDecoded cfg test env headers payload).sends = [] ∧
      (handleDecoded cfg test env headers payload).frames.count ackFrame = 1) ∧
    (∀ ph pd es v, hdrGet headers "eventname" = some "PROCESS_STATE_EXITED" →
      eventdata (payload ++ "\n") = some (ph, pd) →
      hdrGet ph "expected" = some es → parsePyInt es = some v → v ≠ 0 →
      (handleDecoded cfg test env headers payload).cls =
        some Classification.ExpectedExit ∧
      (handleDecoded cfg test env headers payload).sends = [] ∧
      (handleDecoded cfg test env headers payload).frames.count ackFrame = 1) ∧
    (∀ ph pd es ip n p g f,
      hdrGet headers "eventname" = some "PROCESS_STATE_EXITED" →
      eventdata (payload ++ "\n") = some (ph, pd) →
      hdrGet ph "expected" = some es → parsePyInt es = some 0 →
      env.hostIp = some ip → env.sendOk = true →
      hdrGet ph "processname" = some n → hdrGet ph "pid" = some p →
      hdrGet ph "groupname" = some g → hdrGet ph "from_state" = some f →
      (handleDecoded cfg test env headers payload).cls =
        some (Classification.UnexpectedExit (crashMsg n g p f)) ∧
      (handleDecoded cfg test env headers payload).sends.length = 1 ∧
      (handleDecoded cfg test env headers payload).frames.count ackFrame = 1) := by
  refine ⟨?_, ?_, ?_⟩
  · intro en h1 hne
    rw [handleDecoded_ignore cfg test env headers payload en h1 hne]
    refine ⟨rfl, rfl, by simp⟩
  · intro ph pd es v h1 h2 h3 h4 hv
    rw [handleDecoded_expected cfg test env headers payload ph pd es v
      h1 h2 h3 h4 hv]
    refine ⟨rfl, rfl, by simp⟩
  · intro ph pd es ip n p g f h1 h2 h3 h4 h5 hsend h6 h7 h8 h9
    rw [handleDecoded_unexpected cfg test env headers payload ph pd es ip
      n p g f h1 h2 h3 h4 h5 h6 h7 h8 h9, hsend]
    refine ⟨rfl, rfl, by simp⟩

/-- C3 witness: each of the three branches at concrete inputs. -/
theorem C3_witness :
    (handleDecoded exCfg false exEnv [("eventname", "TICK_60"), ("len", "0")]
        "").cls = some Classification.Ignore ∧
    (handleDecoded exCfg false exEnv exHeaders
        "processname:worker groupname:web pid:123 expected:1 from_state:RUNNING").cls =
      some Classification.ExpectedExit ∧
    (handleDecoded exCfg false exEnv exHeaders exPayload).cls =
      some (Classification.UnexpectedExit
        (crashMsg "worker" "web" "123" "RUNNING")) ∧
    (handleDecoded exCfg false exEnv exHeaders exPayload).sends.length = 1 := by
  refine ⟨?_, ?_, ?_, ?_⟩
  · exact ((C3_classification exCfg false exEnv
      [("eventname", "TICK_60"), ("len", "0")] "").1 "TICK_60"
      (by decide) (by decide)).1
  · exact ((C3_classification exCfg false exEnv exHeaders
      "processname:worker groupname:web pid:123 expected:1 from_state:RUNNING").2.1
      [("processname", "worker"), ("groupname", "web"), ("pid", "123"),
       ("expected", "1"), ("from_state", "RUNNING")] "" "1" 1
      (by decide) (by decide) (by decide) (by decide) (by decide)).1
  · exact ((C3_classification exCfg false exEnv exHeaders exPayload).2.2
      exPheaders "" "0" "10.0.0.5" "worker" "123" "web" "RUNNING"
      (by decide) (by decide) (by decide) (by decide) (by decide) (by decide)
      (by decide) (by decide) (by decide) (by decide)).1
  · exact ((C3_classification exCfg false exEnv exHeaders exPayload).2.2
      exPheaders "" "0" "10.0.0.5" "worker" "123" "web" "RUNNING"
      (by decide) (by decide) (by decide) (by decide) (by decide) (by decide)
      (by decide) (by decide) (by decide) (by decide)).2.1

/-! ### C4 -/

/-- C4: the message rendered for every UnexpectedExit event is the
template `Process {name} in group {group} exited unexpectedly (pid {pid})
from state {from_state}` instantiated with the payload's fields. -/
theorem C4_crash_message (cfg : CrashMail) (test : Bool) (e : RawEvent)
    (headers ph : List (String × String)) (pd es ip n p g f : String)
    (h0 : waitHeaders e = some headers)
    (h1 : hdrGet headers "eventname" = some "PROCESS_STATE_EXITED")
    (h2 : eventdata (e.payload ++ "\n") = some (ph, pd))
    (h3 : hdrGet ph "expected" = some es)
    (h4 : parsePyInt es = some 0)
    (h5 : e.env.hostIp = some ip)
    (h6 : hdrGet ph "processname" = some n)
    (h7 : hdrGet ph "pid" = some p)
    (h8 : hdrGet ph "groupname" = some g)
    (h9 : hdrGet ph "from_state" = some f) :
    (handleRaw cfg test e).cls =
      some (Classification.UnexpectedExit (crashMsg n g p f)) ∧
    crashMsg n g p f = "Process " ++ n ++ " in group " ++ g ++
      " exited unexpectedly (pid " ++ p ++ ") from state " ++ f := by
  rw [handleRaw_eq cfg test e headers h0,
    handleDecoded_unexpected cfg test e.env headers e.payload ph pd es ip
      n p g f h1 h2 h3 h4 h5 h6 h7 h8 h9]
  exact ⟨rfl, rfl⟩

/-- C4 witness: the spec's round trip — envelope
`eventname:PROCESS_STATE_EXITED len:41` with the worker/web/123/RUNNING
payload yields UnexpectedExit with exactly the expected message. -/
theorem C4_witness :
    (handleRaw exCfg false rtEvent).cls =
      some (Classification.UnexpectedExit exMsg) := by
  have h := C4_crash_message exCfg false rtEvent
    [("eventname", "PROCESS_STATE_EXITED"), ("len", "41")] exPheaders
    "" "0" "10.0.0.5" "worker" "123" "web" "RUNNING"
    (by decide) (by decide) (by decide) (by decide) (by decide) (by decide)
    (by decide) (by decide) (by decide) (by decide)
  rw [h.1]
  decide

/-! ### C5 -/

/-- C5: the subject of every UnexpectedExit notification is
`{process_name} in {host_address} crashed at {timestamp}`, prefixed with
`{optional_header}:` when a (non-empty) prefix is configured, and
unprefixed when none is configured. -/
theorem C5_subject (cfg : CrashMail) (test : Bool) (env : IterEnv)
    (headers ph : List (String × String)) (payload pd es ip n p g f : String)
    (h1 : hdrGet headers "eventname" = some "PROCESS_STATE_EXITED")
    (h2 : eventdata (payload ++ "\n") = some (ph, pd))
    (h3 : hdrGet ph "expected" = some es)
    (h4 : parsePyInt es = some 0)
    (h5 : env.hostIp = some ip)
    (h6 : hdrGet ph "processname" = some n)
    (h7 : hdrGet ph "pid" = some p)
    (h8 : hdrGet ph "groupname" = some g)
    (h9 : hdrGet ph "from_state" = some f) :
    (handleDecoded cfg test env headers payload).sends.map SendCall.subject =
      [withOptionalheader cfg.optionalheader
        (baseSubject n ip env.timestamp)] ∧
    (cfg.optionalheader = none →
      withOptionalheader cfg.optionalheader (baseSubject n ip env.timestamp) =
        n ++ " in " ++ ip ++ " crashed at " ++ env.timestamp) ∧
    (∀ pfx, cfg.optionalheader = some pfx → pfx ≠ "" →
      withOptionalheader cfg.optionalheader (baseSubject n ip env.timestamp) =
        pfx ++ ":" ++ (n ++ " in " ++ ip ++ " crashed at " ++ env.timestamp)) := by
  rw [handleDecoded_unexpected cfg test env headers payload ph pd es ip
    n p g f h1 h2 h3 h4 h5 h6 h7 h8 h9]
  refine ⟨by simp [unexpectedCall], ?_, ?_⟩
  · intro hnone
    rw [hnone]
    rfl
  · intro pfx hpfx hne
    rw [hpfx]
    simp [withOptionalheader, hne, baseSubject]

/-- C5 witness: prefix `prod`, process `worker`, host `10.0.0.5`,
timestamp `T` give subject `prod:worker in 10.0.0.5 crashed at T`; with no
prefix configured the subject is the unprefixed string. -/
theorem C5_witness :
    (handleDecoded exCfg false exEnv exHeaders exPayload).sends.map
      SendCall.subject = ["prod:worker in 10.0.0.5 crashed at T"] ∧
    (handleDecoded ⟨[], false, "mail.example:6789", "ops@example.com", none⟩
      false exEnv exHeaders exPayload).sends.map SendCall.subject =
      ["worker in 10.0.0.5 crashed at T"] := by
  constructor
  · have h := C5_subject exCfg false exEnv exHeaders exPheaders exPayload
      "" "0" "10.0.0.5" "worker" "123" "web" "RUNNING"
      (by decide) (by decide) (by decide) (by decide) (by decide) (by decide)
      (by decide) (by decide) (by decide)
    rw [h.1, h.2.2 "prod" rfl (by decide)]
    decide
  · have h := C5_subject
      ⟨[], false, "mail.example:6789", "ops@example.com", none⟩
      false exEnv exHeaders exPheaders exPayload
      "" "0" "10.0.0.5" "worker" "123" "web" "RUNNING"
      (by decide) (by decide) (by decide) (by decide) (by decide) (by decide)
      (by decide) (by decide) (by decide)
    rw [h.1, h.2.1 rfl]
    decide

/-! ### C6 -/

/-- C6: a process-exited event whose payload lacks the `expected` key, or
whose `expected` value does not parse as an integer, aborts the iteration
with a fatal protocol error instead of substituting a default: no
notification is sent, no Acknowledge is emitted, and the loop terminates
without processing further events. -/
theorem C6_bad_expected_fatal (cfg : CrashMail) (test : Bool) (e : RawEvent)
    (rest : List RawEvent) (headers ph : List (String × String)) (pd : String)
    (h0 : waitHeaders e = some headers)
    (h1 : hdrGet headers "eventname" = some "PROCESS_STATE_EXITED")
    (h2 : eventdata (e.payload ++ "\n") = some (ph, pd))
    (h3 : hdrGet ph "expected" = none ∨
      ∃ es, hdrGet ph "expected" = some es ∧ parsePyInt es = none) :
    (runforever cfg test (e :: rest)).err = some LoopError.protocolError ∧
    (runforever cfg test (e :: rest)).sends = [] ∧
    (runforever cfg test (e :: rest)).frames = [readyFrame] := by
  have hd := handleDecoded_badExpected cfg test e.env headers e.payload
    ph pd h1 h2 h3
  have hr : handleRaw cfg test e =
      ⟨[readyFrame], [], [], none, some LoopError.protocolError⟩ := by
    rw [handleRaw_eq cfg test e headers h0, hd]
  rw [runforever_cons_err cfg test e rest LoopError.protocolError
    (by rw [hr]), hr]
  exact ⟨rfl, rfl, rfl⟩

/-- C6 witness: `expected:oops` at a concrete event is fatal. -/
theorem C6_witness :
    (runforever exCfg false [exEventBadExpected, exEventOk]).err =
      some LoopError.protocolError ∧
    (runforever exCfg false [exEventBadExpected, exEventOk]).sends = [] := by
  have h := C6_bad_expected_fatal exCfg false exEventBadExpected [exEventOk]
    exHeaders
    [("processname", "worker"), ("groupname", "web"), ("pid", "123"),
     ("expected", "oops"), ("from_state", "RUNNING")] ""
    (by decide) (by decide) (by decide)
    (Or.inr ⟨"oops", by decide, by decide⟩)
  exact ⟨h.1, h.2.1⟩

/-! ### C7 -/

/-- C7: a failing outbound-address probe during classification of an
UnexpectedExit event propagates uncaught and terminates the listener loop:
no placeholder address is substituted, no notification is sent, and no
Acknowledge frame is emitted for that event. -/
theorem C7_probe_failure_fatal (cfg : CrashMail) (test : Bool) (e : RawEvent)
    (rest : List RawEvent) (headers ph : List (String × String)) (pd es : String)
    (h0 : waitHeaders e = some headers)
    (h1 : hdrGet headers "eventname" = some "PROCESS_STATE_EXITED")
    (h2 : eventdata (e.payload ++ "\n") = some (ph, pd))
    (h3 : hdrGet ph "expected" = some es)
    (h4 : parsePyInt es = some 0)
    (h5 : e.env.hostIp = none) :
    (runforever cfg test (e :: rest)).err = some LoopError.probeError ∧
    (runforever cfg test (e :: rest)).sends = [] ∧
    (runforever cfg test (e :: rest)).frames = [readyFrame] ∧
    (runforever cfg test (e :: rest)).frames.count ackFrame = 0 := by
  have hd := handleDecoded_probeFail cfg test e.env headers e.payload
    ph pd es h1 h2 h3 h4 h5
  have hr : handleRaw cfg test e =
      ⟨[readyFrame], [], [], none, some LoopError.probeError⟩ := by
    rw [handleRaw_eq cfg test e headers h0, hd]
  rw [runforever_cons_err cfg test e rest LoopError.probeError
    (by rw [hr]), hr]
  exact ⟨rfl, rfl, rfl, by decide⟩

/-- C7 witness: the probe failure at a concrete UnexpectedExit event. -/
theorem C7_witness :
    (runforever exCfg false [exEventProbeFail, exEventOk]).err =
      some LoopError.probeError ∧
    (runforever exCfg false [exEventProbeFail, exEventOk]).sends = [] ∧
    (runforever exCfg false [exEventProbeFail, exEventOk]).frames.count
      ackFrame = 0 := by
  have h := C7_probe_failure_fatal exCfg false exEventProbeFail [exEventOk]
    exHeaders exPheaders "" "0"
    (by decide) (by decide) (by decide) (by decide) (by decide) (by decide)
  exact ⟨h.1, h.2.1, h.2.2.2⟩

end Superlance

namespace Superlance

/-! ### C8 -/

/-- The loop body never consults `programs` or `any`: equal values of the
three consulted fields give equal iteration outcomes. -/
lemma handleDecoded_cfg_eq (cfg1 cfg2 : CrashMail) (test : Bool)
    (env : IterEnv) (headers : List (String × String)) (payload : String)
    (h1 : cfg1.email_host = cfg2.email_host)
    (h2 : cfg1.email_to = cfg2.email_to)
    (h3 : cfg1.optionalheader = cfg2.optionalheader) :
    handleDecoded cfg1 test env headers payload =
      handleDecoded cfg2 test env headers payload := by
  simp only [handleDecoded, h1, h2, h3]

/-- C8: two configurations that differ only in `programs` and `any`
produce identical iteration outcomes (classification, notifications,
frames, errors) on every event and identical runs on every event
stream. -/
theorem C8_programs_any_noninterference (cfg1 cfg2 : CrashMail) (test : Bool)
    (h1 : cfg1.email_host = cfg2.email_host)
    (h2 : cfg1.email_to = cfg2.email_to)
    (h3 : cfg1.optionalheader = cfg2.optionalheader) :
    (∀ e, handleRaw cfg1 test e = handleRaw cfg2 test e) ∧
    (∀ events, runforever cfg1 test events = runforever cfg2 test events) := by
  have hraw : ∀ e, handleRaw cfg1 test e = handleRaw cfg2 test e := by
    intro e
    cases hw : waitHeaders e with
    | none => simp [handleRaw, hw]
    | some headers =>
      simp [handleRaw, hw,
        handleDecoded_cfg_eq cfg1 cfg2 test e.env headers e.payload h1 h2 h3]
  refine ⟨hraw, ?_⟩
  intro events
  induction events with
  | nil => rfl
  | cons e rest ih =>
    simp only [runforever, hraw e, ih]

/-- C8 witness: a configuration with a populated `programs` list and one
with `any` set produce the same run on a concrete stream. -/
theorem C8_witness :
    runforever ⟨["web:worker", "other"], false, "mail.example:6789",
        "ops@example.com", some "prod"⟩ false [exEventOk, exEventSendFail] =
      runforever ⟨[], true, "mail.example:6789", "ops@example.com",
        some "prod"⟩ false [exEventOk, exEventSendFail] :=
  (C8_programs_any_noninterference
    ⟨["web:worker", "other"], false, "mail.example:6789", "ops@example.com",
      some "prod"⟩
    ⟨[], true, "mail.example:6789", "ops@example.com", some "prod"⟩
    false rfl rfl rfl).2 [exEventOk, exEventSendFail]

/-! ### C9 -/

/-- C9: when the option loop completes without the help/usage exit, `main`
with the `SUPERVISOR_SERVER_URL` marker absent returns the diagnostic
without constructing the listener or entering the loop, and with the
marker present constructs the listener and enters the loop. -/
theorem C9_env_marker (opts : List (String × String)) (envKeys : List String)
    (events : List RawEvent) (cfg : CrashMail)
    (h : processOpts initialCrashMail opts = .ok cfg) :
    (envKeys.contains SUPERVISOR_SERVER_URL = false →
      main opts envKeys events = .envMissing crashmailDiagnostic) ∧
    (envKeys.contains SUPERVISOR_SERVER_URL = true →
      main opts envKeys events = .ran cfg (runforever cfg false events)) := by
  constructor
  · intro hc
    simp only [main, h]
    rw [if_neg (by rw [hc]; decide)]
  · intro hc
    simp only [main, h]
    rw [if_pos hc]

/-- C9 witness: concrete environments with and without the marker. -/
theorem C9_witness :
    main [] ["PATH"] [] = MainOutcome.envMissing crashmailDiagnostic ∧
    main [] ["PATH", SUPERVISOR_SERVER_URL] [] =
      MainOutcome.ran initialCrashMail (runforever initialCrashMail false []) :=
  ⟨(C9_env_marker [] ["PATH"] [] initialCrashMail rfl).1 (by decide),
   (C9_env_marker [] ["PATH", SUPERVISOR_SERVER_URL] [] initialCrashMail
     rfl).2 (by decide)⟩

/-! ### C10 -/

/-- An option that is not the recipient option leaves `email_to`
unchanged. -/
lemma processOption_email_to (st : CrashMail) (ov : String × String)
    (st2 : CrashMail) (h : processOption st ov = .ok st2)
    (hm1 : ov.1 ≠ "-m") (hm2 : ov.1 ≠ "--email_to") :
    st2.email_to = st.email_to := by
  revert h
  unfold processOption
  repeat' split
  all_goals intro h
  all_goals cases h
  all_goals simp_all

/-- An option that is not the endpoint option leaves `email_host`
unchanged. -/
lemma processOption_email_host (st : CrashMail) (ov : String × String)
    (st2 : CrashMail) (h : processOption st ov = .ok st2)
    (hh1 : ov.1 ≠ "-h") (hh2 : ov.1 ≠ "--email_host") :
    st2.email_host = st.email_host := by
  revert h
  unfold processOption
  repeat' split
  all_goals intro h
  all_goals cases h
  all_goals simp_all

/-- The option loop leaves `email_to` at its starting value when no
recipient option occurs. -/
lemma processOpts_email_to (opts : List (String × String)) :
    ∀ (st cfg : CrashMail), processOpts st opts = .ok cfg →
    (∀ ov ∈ opts, ov.1 ≠ "-m" ∧ ov.1 ≠ "--email_to") →
    cfg.email_to = st.email_to := by
  induction opts with
  | nil =>
    intro st cfg h _
    simp only [processOpts] at h
    cases h
    rfl
  | cons ov rest ih =>
    intro st cfg h hall
    unfold processOpts at h
    cases hp : processOption st ov with
    | error s => rw [hp] at h; cases h
    | ok st2 =>
      rw [hp] at h
      have h2 := ih st2 cfg h
        (fun x hx => hall x (List.mem_cons_of_mem _ hx))
      have h3 := processOption_email_to st ov st2 hp
        (hall ov (List.mem_cons_self _ _)).1
        (hall ov (List.mem_cons_self _ _)).2
      rw [h2, h3]

/-- The option loop leaves `email_host` at its starting value when no
endpoint option occurs. -/
lemma processOpts_email_host (opts : List (String × String)) :
    ∀ (st cfg : CrashMail), processOpts st opts = .ok cfg →
    (∀ ov ∈ opts, ov.1 ≠ "-h" ∧ ov.1 ≠ "--email_host") →
    cfg.email_host = st.email_host := by
  induction opts with
  | nil =>
    intro st cfg h _
    simp only [processOpts] at h
    cases h
    rfl
  | cons ov rest ih =>
    intro st cfg h hall
    unfold processOpts at h
    cases hp : processOption st ov with
    | error s => rw [hp] at h; cases h
    | ok st2 =>
      rw [hp] at h
      have h2 := ih st2 cfg h
        (fun x hx => hall x (List.mem_cons_of_mem _ hx))
      have h3 := processOption_email_host st ov st2 hp
        (hall ov (List.mem_cons_self _ _)).1
        (hall ov (List.mem_cons_self _ _)).2
      rw [h2, h3]

/-- C10 (implicit): when no recipient option is supplied, `main`'s option
loop leaves the hardcoded default recipient
`senserealty-devops@sensetime.com` and (absent an endpoint option) the
hardcoded default endpoint `xxx.xxx.xxx.xxx:6789` in place, and on every
UnexpectedExit event a send is attempted to exactly that recipient through
exactly that endpoint — there is no "no recipient configured, skip
sending" path. -/
theorem C10_default_recipient (opts : List (String × String)) (cfg : CrashMail)
    (hok : processOpts initialCrashMail opts = .ok cfg)
    (hm : ∀ ov ∈ opts, ov.1 ≠ "-m" ∧ ov.1 ≠ "--email_to")
    (hh : ∀ ov ∈ opts, ov.1 ≠ "-h" ∧ ov.1 ≠ "--email_host") :
    cfg.email_to = defaultEmailTo ∧ cfg.email_host = defaultEmailHost ∧
    (∀ (test : Bool) (e : RawEvent) (headers ph : List (String × String))
      (pd es ip n p g f : String),
      waitHeaders e = some headers →
      hdrGet headers "eventname" = some "PROCESS_STATE_EXITED" →
      eventdata (e.payload ++ "\n") = some (ph, pd) →
      hdrGet ph "expected" = some es → parsePyInt es = some 0 →
      e.env.hostIp = some ip →
      hdrGet ph "processname" = some n → hdrGet ph "pid" = some p →
      hdrGet ph "groupname" = some g → hdrGet ph "from_state" = some f →
      (handleRaw cfg test e).sends.map (fun c => (c.email_host, c.email_to)) =
        [(defaultEmailHost, defaultEmailTo)]) := by
  have hto := processOpts_email_to opts initialCrashMail cfg hok hm
  have hhost := processOpts_email_host opts initialCrashMail cfg hok hh
  refine ⟨hto, hhost, ?_⟩
  intro test e headers ph pd es ip n p g f h0 h1 h2 h3 h4 h5 h6 h7 h8 h9
  rw [handleRaw_eq cfg test e headers h0,
    handleDecoded_unexpected cfg test e.env headers e.payload ph pd es ip
      n p g f h1 h2 h3 h4 h5 h6 h7 h8 h9]
  simp only [unexpectedCall, hto, hhost, List.map_cons, List.map_nil]
  rfl

/-- C10 witness: with only `-o` and `-a` options, the constructed listener
holds the defaults and a concrete UnexpectedExit event triggers one send
to the default recipient through the default endpoint. -/
theorem C10_witness :
    (handleRaw ⟨[], true, defaultEmailHost, defaultEmailTo, some "prod"⟩
        false exEventOk).sends.map (fun c => (c.email_host, c.email_to)) =
      [(defaultEmailHost, defaultEmailTo)] := by
  have h := C10_default_recipient [("-o", "prod"), ("-a", "")]
    ⟨[], true, defaultEmailHost, defaultEmailTo, some "prod"⟩
    rfl (by decide) (by decide)
  exact h.2.2 false exEventOk exHeaders exPheaders "" "0" "10.0.0.5"
    "worker" "123" "web" "RUNNING" (by decide) (by decide) (by decide)
    (by decide) (by decide) (by decide) (by decide) (by decide) (by decide)
    (by decide)

end Superlance
